import Mathlib

/-!
Verification of the trading-engine core of this repository against its
natural-language specification.  All JavaScript numbers are modelled as
rationals (`ℚ`); fallible code returns `Except`/`Option`; the mutable
singleton services are modelled by explicit state passing.  Each definition
is a direct translation of the correspondingly named function in the
TypeScript source.
-/

set_option maxRecDepth 4000

/-! ## Risk Service (src/services/riskService.ts) -/

namespace RiskService

/-- `Account` from riskService.ts (the fields the risk functions read). -/
structure Account where
  balance : ℚ
  equity : ℚ
  marginUsed : ℚ
  freeMargin : ℚ
  marginLevel : ℚ
  deriving Repr, DecidableEq

/-- `Position` from riskService.ts (the fields the risk functions read). -/
structure RPosition where
  symbol : String
  size : ℚ
  entryPrice : ℚ
  currentPrice : ℚ
  unrealizedPnL : ℚ
  stopLoss : Option ℚ
  deriving Repr, DecidableEq

/-- `Portfolio` from riskService.ts (the fields the risk functions read). -/
structure RPortfolio where
  totalValue : ℚ
  positions : List RPosition
  cash : ℚ
  deriving Repr, DecidableEq

/-- `OrderRequest` from riskService.ts. -/
structure ROrderRequest where
  symbol : String
  side : Bool            -- true = buy, false = sell
  size : ℚ
  price : Option ℚ       -- JS `order.price` may be `undefined`
  stopLoss : Option ℚ
  takeProfit : Option ℚ
  deriving Repr, DecidableEq

/-- `RiskLimits` from riskService.ts. -/
structure RiskLimits where
  maxPositionSize : ℚ
  maxLeverage : ℚ
  maxDrawdown : ℚ
  maxDailyLoss : ℚ
  maxCorrelation : ℚ
  stopLossPercent : ℚ
  takeProfitPercent : ℚ
  maxOpenPositions : ℕ
  maxRiskPerTrade : ℚ
  minimumMarginLevel : ℚ
  deriving Repr, DecidableEq

/-- The default `riskLimits` initialised in the `RiskService` constructor. -/
def defaultRiskLimits : RiskLimits where
  maxPositionSize := 10
  maxLeverage := 3
  maxDrawdown := 20
  maxDailyLoss := 5
  maxCorrelation := 7/10
  stopLossPercent := 2
  takeProfitPercent := 4
  maxOpenPositions := 10
  maxRiskPerTrade := 2
  minimumMarginLevel := 100

/-- `RiskService.calculatePositionSize`.  The source `throw`s when the
stop-loss distance is zero, which we model with `Except.error`. -/
def calculatePositionSize (limits : RiskLimits) (account : Account)
    (riskPercentage entryPrice stopLossPrice : ℚ) : Except String ℚ :=
  let accountBalance := account.balance
  let riskAmount := accountBalance * (riskPercentage / 100)
  let stopLossDistance := |entryPrice - stopLossPrice|
  if stopLossDistance = 0 then
    .error "Stop loss distance cannot be zero"
  else
    let positionSize := riskAmount / stopLossDistance
    let maxPositionValue := accountBalance * (limits.maxPositionSize / 100)
    let maxPositionSize := maxPositionValue / entryPrice
    .ok (min positionSize maxPositionSize)

/-- `RiskService.calculateTotalExposure`. -/
def calculateTotalExposure (portfolio : RPortfolio) : ℚ :=
  portfolio.positions.foldl (fun total p => total + |p.size * p.currentPrice|) 0

/-- `RiskService.calculateRequiredMargin`: `order.size * (order.price || 0)`
times the flat 10% margin rate. -/
def calculateRequiredMargin (order : ROrderRequest) : ℚ :=
  let orderValue := order.size * (order.price.getD 0)
  orderValue * (1/10)

/-- JS `a.includes(b)` on strings: substring containment. -/
def strIncludes (s sub : String) : Bool :=
  decide (sub.toList <:+: s.toList)

/-- `RiskService.calculateCorrelation`.  JS indexes `symbol.split('/')` at 0
and 1; a missing index is `undefined`, which `String.prototype.includes`
coerces to the literal string `"undefined"` — modelled by the `getD`
defaults. -/
def calculateCorrelation (symbol : String) (portfolio : RPortfolio) : ℚ :=
  let parts := symbol.splitOn "/"
  let part0 := parts.getD 0 "undefined"
  let part1 := parts.getD 1 "undefined"
  let similar := portfolio.positions.filter
    (fun pos => strIncludes pos.symbol part0 || strIncludes pos.symbol part1)
  if similar.length > 0 then 1/2 else 0

/-- The reason of the first check in `RiskService.validateOrder` that fires;
each constructor carries the values interpolated into the source's message
string. -/
inductive RejectReason
  | maxPositions (limit : ℕ)
  | positionSize (percent : ℚ) (limit : ℚ)
  | leverage (leverage : ℚ) (limit : ℚ)
  | margin (required : ℚ) (available : ℚ)
  | correlation (corr : ℚ) (limit : ℚ)
  deriving Repr, DecidableEq

/-- `RiskService.validateOrder`: the five sequential checks; `none` means
`{valid: true}` and `some r` the first violation, as in the source. -/
def validateOrder (limits : RiskLimits) (order : ROrderRequest)
    (portfolio : RPortfolio) (account : Account) : Option RejectReason :=
  if portfolio.positions.length ≥ limits.maxOpenPositions then
    some (.maxPositions limits.maxOpenPositions)
  else
    let orderValue := order.size * (order.price.getD 0)
    let positionSizePercent := (orderValue / portfolio.totalValue) * 100
    if positionSizePercent > limits.maxPositionSize then
      some (.positionSize positionSizePercent limits.maxPositionSize)
    else
      let totalExposure := calculateTotalExposure portfolio + orderValue
      let leverage := totalExposure / portfolio.totalValue
      if leverage > limits.maxLeverage then
        some (.leverage leverage limits.maxLeverage)
      else
        let requiredMargin := calculateRequiredMargin order
        if account.freeMargin < requiredMargin then
          some (.margin requiredMargin account.freeMargin)
        else
          let correlation := calculateCorrelation order.symbol portfolio
          if correlation > limits.maxCorrelation then
            some (.correlation correlation limits.maxCorrelation)
          else
            none

/-- `RiskService.calculateHistoricalVaR`, as a function of the portfolio
returns produced by `calculatePortfolioReturns`.  `sqrtTimeHorizon` stands
for the source's `Math.sqrt(timeHorizon)` (irrational for most horizons, so
it is passed in rather than recomputed over `ℚ`).  JS
`portfolioReturns[index] || 0` yields `0` both for an out-of-range index
and for a stored `0`, which `List.getD … 0` reproduces. -/
def calculateHistoricalVaR (portfolioReturns : List ℚ) (confidence : ℚ)
    (sqrtTimeHorizon : ℚ) (totalValue : ℚ) : ℚ :=
  if portfolioReturns.length = 0 then 0
  else
    let sorted := portfolioReturns.mergeSort (fun a b => a ≤ b)
    let index : ℤ := ⌊(1 - confidence) * portfolioReturns.length⌋
    let varReturn : ℚ := if 0 ≤ index then sorted.getD index.toNat 0 else 0
    |varReturn * sqrtTimeHorizon * totalValue|

end RiskService

/-! ## Indicator Library (src/utils/technicalIndicators.ts)

All fourteen indicators, translated loop-for-loop.  JS `Math.sqrt` is
irrational over `ℚ`, so `bollingerBands` takes the square-root function as
a parameter.  JS `arr[i]` on an in-range index is modelled by
`List.getD i 0`; every loop below indexes only in range for equal-length
inputs. -/

namespace TechnicalIndicators

/-- JS `Math.max(...list)` over a list that the source only builds nonempty. -/
def maxList : List ℚ → ℚ
  | [] => 0
  | x :: xs => xs.foldl max x

/-- JS `Math.min(...list)` over a list that the source only builds nonempty. -/
def minList : List ℚ → ℚ
  | [] => 0
  | x :: xs => xs.foldl min x

/-- `TechnicalIndicators.sma`. -/
def sma (prices : List ℚ) (period : ℕ) : List ℚ :=
  if prices.length < period then []
  else
    (List.range' (period - 1) (prices.length - (period - 1))).map (fun i =>
      (((prices.drop (i + 1 - period)).take period).sum) / period)

/-- `TechnicalIndicators.ema`: seeded with the first price, multiplier
`2/(period+1)`. -/
def ema (prices : List ℚ) (period : ℕ) : List ℚ :=
  match prices with
  | [] => []
  | p0 :: rest =>
    let m : ℚ := 2 / ((period : ℚ) + 1)
    rest.scanl (fun prev p => p * m + prev * (1 - m)) p0

/-- One RSI output value.  When the smoothed average loss is `0`, IEEE
arithmetic gives `rs = ∞` and the source's `100 - 100/(1+rs)` evaluates to
`100`; over `ℚ` this branch is written out. -/
def rsiValue (avgGain avgLoss : ℚ) : ℚ :=
  if avgLoss = 0 then 100 else 100 - 100 / (1 + avgGain / avgLoss)

/-- `TechnicalIndicators.rsi`: Wilder smoothing over the gain/loss series. -/
def rsi (prices : List ℚ) (period : ℕ) : List ℚ :=
  if prices.length < period + 1 then []
  else
    let gains := List.zipWith (fun a b => max (b - a) 0) prices prices.tail
    let losses := List.zipWith (fun a b => max (a - b) 0) prices prices.tail
    let avgGain0 := (gains.take period).sum / period
    let avgLoss0 := (losses.take period).sum / period
    let out := (List.range' period (gains.length - period)).foldl
      (fun (st : ℚ × ℚ × List ℚ) i =>
        if i = period then
          (st.1, st.2.1, st.2.2 ++ [rsiValue st.1 st.2.1])
        else
          let ag := (st.1 * ((period : ℚ) - 1) + gains.getD i 0) / period
          let al := (st.2.1 * ((period : ℚ) - 1) + losses.getD i 0) / period
          (ag, al, st.2.2 ++ [rsiValue ag al]))
      (avgGain0, avgLoss0, [])
    out.2.2

/-- One `MACDResult` triple. -/
structure MACDResult where
  macd : ℚ
  signal : ℚ
  histogram : ℚ
  deriving Repr, DecidableEq

/-- `TechnicalIndicators.macd` (the source is used with
`fastPeriod ≤ slowPeriod`). -/
def macd (prices : List ℚ) (fastPeriod slowPeriod signalPeriod : ℕ) :
    List MACDResult :=
  if prices.length < slowPeriod then []
  else
    let fastEMA := ema prices fastPeriod
    let slowEMA := ema prices slowPeriod
    let startIndex := slowPeriod - fastPeriod
    let macdLine := List.zipWith (fun f s => f - s) (fastEMA.drop startIndex) slowEMA
    let signalLine := ema macdLine signalPeriod
    let signalStartIndex := macdLine.length - signalLine.length
    List.zipWith (fun m s => MACDResult.mk m s (m - s))
      (macdLine.drop signalStartIndex) signalLine

/-- One `BollingerBandsResult`. -/
structure BollingerBandsResult where
  upper : ℚ
  middle : ℚ
  lower : ℚ
  deriving Repr, DecidableEq

/-- `TechnicalIndicators.bollingerBands`; `sqrt` stands for `Math.sqrt`. -/
def bollingerBands (sqrt : ℚ → ℚ) (prices : List ℚ) (period : ℕ)
    (stdDev : ℚ) : List BollingerBandsResult :=
  if prices.length < period then []
  else
    let smaValues := sma prices period
    (List.range smaValues.length).map (fun i =>
      let priceSlice := (prices.drop i).take period
      let m := smaValues.getD i 0
      let variance := (priceSlice.map (fun p => (p - m) ^ 2)).sum / (period : ℚ)
      let standardDeviation := sqrt variance
      BollingerBandsResult.mk (m + standardDeviation * stdDev) m
        (m - standardDeviation * stdDev))

/-- One `StochasticResult`. -/
structure StochasticResult where
  k : ℚ
  d : ℚ
  deriving Repr, DecidableEq

/-- `TechnicalIndicators.stochastic`. -/
def stochastic (highs lows closes : List ℚ) (kPeriod dPeriod : ℕ) :
    List StochasticResult :=
  if highs.length < kPeriod ∨ lows.length < kPeriod ∨ closes.length < kPeriod
  then []
  else
    let kValues := (List.range' (kPeriod - 1) (closes.length - (kPeriod - 1))).map
      (fun i =>
        let highestHigh := maxList ((highs.drop (i + 1 - kPeriod)).take kPeriod)
        let lowestLow := minList ((lows.drop (i + 1 - kPeriod)).take kPeriod)
        ((closes.getD i 0 - lowestLow) / (highestHigh - lowestLow)) * 100)
    let dValues := sma kValues dPeriod
    let startIndex := kValues.length - dValues.length
    List.zipWith (fun kv d => StochasticResult.mk kv d)
      (kValues.drop startIndex) dValues

/-- `TechnicalIndicators.atr`: true ranges smoothed by `ema`. -/
def atr (highs lows closes : List ℚ) (period : ℕ) : List ℚ :=
  if highs.length < 2 ∨ lows.length < 2 ∨ closes.length < 2 then []
  else
    let trueRanges := (List.range' 1 (highs.length - 1)).map (fun i =>
      max (highs.getD i 0 - lows.getD i 0)
        (max |highs.getD i 0 - closes.getD (i - 1) 0|
          |lows.getD i 0 - closes.getD (i - 1) 0|))
    ema trueRanges period

/-- `TechnicalIndicators.cci`. -/
def cci (highs lows closes : List ℚ) (period : ℕ) : List ℚ :=
  if highs.length < period then []
  else
    (List.range' (period - 1) (highs.length - (period - 1))).map (fun i =>
      let typicalPrices := (List.range' (i + 1 - period) period).map (fun j =>
        (highs.getD j 0 + lows.getD j 0 + closes.getD j 0) / 3)
      let smaTP := typicalPrices.sum / period
      let meanDeviation := (typicalPrices.map (fun tp => |tp - smaTP|)).sum / period
      let currentTP := (highs.getD i 0 + lows.getD i 0 + closes.getD i 0) / 3
      (currentTP - smaTP) / ((3 / 200) * meanDeviation))

/-- `TechnicalIndicators.williamsR`. -/
def williamsR (highs lows closes : List ℚ) (period : ℕ) : List ℚ :=
  if highs.length < period then []
  else
    (List.range' (period - 1) (closes.length - (period - 1))).map (fun i =>
      let highestHigh := maxList ((highs.drop (i + 1 - period)).take period)
      let lowestLow := minList ((lows.drop (i + 1 - period)).take period)
      ((highestHigh - closes.getD i 0) / (highestHigh - lowestLow)) * (-100))

/-- JS `a || b` on numbers: `0` (and `undefined`) fall through to `b`. -/
def jsOr (a b : ℚ) : ℚ := if a = 0 then b else a

/-- `TechnicalIndicators.parabolicSAR`: state machine over
(isUpTrend, sar, ep, af). -/
def parabolicSAR (highs lows : List ℚ) (step maxAF : ℚ) : List ℚ :=
  if highs.length < 2 ∨ lows.length < 2 then []
  else
    let isUp0 := highs.getD 1 0 > highs.getD 0 0
    let sar0 := if isUp0 then lows.getD 0 0 else highs.getD 0 0
    let ep0 := if isUp0 then highs.getD 1 0 else lows.getD 1 0
    let final := (List.range' 2 (highs.length - 2)).foldl
      (fun (st : Bool × ℚ × ℚ × ℚ × List ℚ) i =>
        let (isUpTrend, prevSar, ep, af, out) := st
        let sar := prevSar + af * (ep - prevSar)
        if isUpTrend then
          if lows.getD i 0 ≤ sar then
            (false, ep, lows.getD i 0, step, out ++ [ep])
          else
            let (ep', af') :=
              if highs.getD i 0 > ep then (highs.getD i 0, min (af + step) maxAF)
              else (ep, af)
            let sar' := min sar (min (lows.getD (i - 1) 0)
              (jsOr (lows.getD (i - 2) 0) (lows.getD (i - 1) 0)))
            (true, sar', ep', af', out ++ [sar'])
        else
          if highs.getD i 0 ≥ sar then
            (true, ep, highs.getD i 0, step, out ++ [ep])
          else
            let (ep', af') :=
              if lows.getD i 0 < ep then (lows.getD i 0, min (af + step) maxAF)
              else (ep, af)
            let sar' := max sar (max (highs.getD (i - 1) 0)
              (jsOr (highs.getD (i - 2) 0) (highs.getD (i - 1) 0)))
            (false, sar', ep', af', out ++ [sar']))
      (isUp0, sar0, ep0, step, [sar0])
    final.2.2.2.2

/-- `TechnicalIndicators.vwap`: the one indicator that `throw`s, on
mismatched input lengths. -/
def vwap (highs lows closes volumes : List ℚ) : Except String (List ℚ) :=
  if highs.length ≠ lows.length ∨ lows.length ≠ closes.length ∨
      closes.length ≠ volumes.length then
    .error "All arrays must have the same length"
  else
    let final := (List.range highs.length).foldl
      (fun (st : ℚ × ℚ × List ℚ) i =>
        let typicalPrice := (highs.getD i 0 + lows.getD i 0 + closes.getD i 0) / 3
        let cumulativeTPV := st.1 + typicalPrice * volumes.getD i 0
        let cumulativeVolume := st.2.1 + volumes.getD i 0
        (cumulativeTPV, cumulativeVolume, st.2.2 ++ [cumulativeTPV / cumulativeVolume]))
      (0, 0, [])
    .ok final.2.2

/-- One MFI output value; as in `rsiValue`, a zero negative money flow gives
`100` under IEEE arithmetic. -/
def mfiValue (positiveMoneyFlow negativeMoneyFlow : ℚ) : ℚ :=
  if negativeMoneyFlow = 0 then 100
  else 100 - 100 / (1 + positiveMoneyFlow / negativeMoneyFlow)

/-- `TechnicalIndicators.mfi`. -/
def mfi (highs lows closes volumes : List ℚ) (period : ℕ) : List ℚ :=
  if highs.length < period + 1 then []
  else
    (List.range' period (highs.length - period)).map (fun i =>
      let flows := (List.range' (i + 1 - period) period).map (fun j =>
        let typicalPrice := (highs.getD j 0 + lows.getD j 0 + closes.getD j 0) / 3
        let prevTypicalPrice :=
          (highs.getD (j - 1) 0 + lows.getD (j - 1) 0 + closes.getD (j - 1) 0) / 3
        let rawMoneyFlow := typicalPrice * volumes.getD j 0
        if typicalPrice > prevTypicalPrice then (rawMoneyFlow, (0 : ℚ))
        else if typicalPrice < prevTypicalPrice then ((0 : ℚ), rawMoneyFlow)
        else ((0 : ℚ), (0 : ℚ)))
      mfiValue (flows.map Prod.fst).sum (flows.map Prod.snd).sum)

/-- The record returned by `TechnicalIndicators.ichimoku`. -/
structure IchimokuResult where
  conversionLine : List ℚ
  baseLine : List ℚ
  leadingSpanA : List ℚ
  leadingSpanB : List ℚ
  laggingSpan : List ℚ
  deriving Repr, DecidableEq

/-- The (high+low)/2 midpoint series used by all three Ichimoku spans. -/
def ichimokuLine (highs lows : List ℚ) (period : ℕ) : List ℚ :=
  (List.range' (period - 1) (highs.length - (period - 1))).map (fun i =>
    (maxList ((highs.drop (i + 1 - period)).take period) +
      minList ((lows.drop (i + 1 - period)).take period)) / 2)

/-- `TechnicalIndicators.ichimoku` (periods 9/26/52 fixed in the source). -/
def ichimoku (highs lows closes : List ℚ) : IchimokuResult :=
  let conversionLine := ichimokuLine highs lows 9
  let baseLine := ichimokuLine highs lows 26
  let startIndex := max conversionLine.length baseLine.length -
    min conversionLine.length baseLine.length
  let leadingSpanA := (List.range (min conversionLine.length baseLine.length)).map
    (fun i =>
      let conversionValue := conversionLine.getD
        (i + (if conversionLine.length > baseLine.length then 0 else startIndex)) 0
      let baseValue := baseLine.getD
        (i + (if baseLine.length > conversionLine.length then 0 else startIndex)) 0
      (conversionValue + baseValue) / 2)
  let leadingSpanB := ichimokuLine highs lows 52
  IchimokuResult.mk conversionLine baseLine leadingSpanA leadingSpanB closes

/-- `TechnicalIndicators.findSupportResistance`. -/
def findSupportResistance (highs lows : List ℚ) (lookbackPeriod : ℕ) :
    List ℚ × List ℚ :=
  let final := (List.range' lookbackPeriod
      ((highs.length - lookbackPeriod) - lookbackPeriod)).foldl
    (fun (st : List ℚ × List ℚ) i =>
      let currentHigh := highs.getD i 0
      let currentLow := lows.getD i 0
      let isResistance := (List.range' (i - lookbackPeriod) (2 * lookbackPeriod)).all
        (fun j => j = i || decide (highs.getD j 0 < currentHigh))
      let isSupport := (List.range' (i - lookbackPeriod) (2 * lookbackPeriod)).all
        (fun j => j = i || decide (lows.getD j 0 > currentLow))
      (if isSupport then st.1 ++ [currentLow] else st.1,
       if isResistance then st.2 ++ [currentHigh] else st.2))
    ([], [])
  final

end TechnicalIndicators

/-! ## Portfolio Service (src/services/portfolioService.ts) -/

namespace PortfolioService

/-- Trade/order side shared by the portfolio and order services. -/
inductive Side
  | buy
  | sell
  deriving Repr, DecidableEq

/-- `Trade` from portfolioService.ts. -/
structure Trade where
  id : String
  portfolioId : String
  symbol : String
  side : Side
  quantity : ℚ
  price : ℚ
  timestamp : ℕ
  commission : ℚ
  exchange : String
  deriving Repr, DecidableEq

/-- `Position` from portfolioService.ts. -/
structure Position where
  id : String
  portfolioId : String
  symbol : String
  quantity : ℚ
  avgPrice : ℚ
  currentPrice : ℚ
  marketValue : ℚ
  unrealizedPnL : ℚ
  unrealizedPnLPercent : ℚ
  entryDate : ℕ
  lastUpdated : ℕ
  deriving Repr, DecidableEq

/-- `Portfolio` from portfolioService.ts (the fields the ledger mutates). -/
structure Portfolio where
  id : String
  totalValue : ℚ
  totalEquity : ℚ
  cashBalance : ℚ
  marginUsed : ℚ
  freeMargin : ℚ
  unrealizedPnL : ℚ
  realizedPnL : ℚ
  positions : List Position
  deriving Repr, DecidableEq

/-- JS `positions.find(p => p.symbol === sym)` mutated in place: replace the
first position with this symbol. -/
def updateFirst (ps : List Position) (sym : String) (f : Position → Position) :
    List Position :=
  match ps with
  | [] => []
  | p :: rest =>
    if p.symbol = sym then f p :: rest else p :: updateFirst rest sym f

/-- `PortfolioService.processTrade`.  The source generates the new position's
id from the clock and `Math.random()`; it is derived from the trade id here
(`pos_` prefixed), which only has to be fresh.  Every arithmetic step is the
source's, including the cash credit inside the sell branch *and* the generic
cash adjustment that follows it. -/
def processTrade (portfolio : Portfolio) (trade : Trade) : Portfolio :=
  let existing? := portfolio.positions.find? (fun p => p.symbol = trade.symbol)
  let afterPosition : Portfolio :=
    match existing? with
    | some existingPosition =>
      let updated : Position :=
        match trade.side with
        | .buy =>
          let newQuantity := existingPosition.quantity + trade.quantity
          let newAvgPrice := ((existingPosition.quantity * existingPosition.avgPrice)
            + (trade.quantity * trade.price)) / newQuantity
          { existingPosition with
              quantity := newQuantity
              avgPrice := newAvgPrice
              lastUpdated := trade.timestamp }
        | .sell =>
          { existingPosition with
              quantity := max 0 (existingPosition.quantity - trade.quantity)
              lastUpdated := trade.timestamp }
      let sellEffects : ℚ × ℚ :=
        match trade.side with
        | .buy => (0, 0)
        | .sell =>
          (trade.quantity * (trade.price - existingPosition.avgPrice),
           trade.quantity * trade.price - trade.commission)
      let positions1 : List Position := updateFirst portfolio.positions trade.symbol (fun _ => updated)
      let positions2 :=
        if updated.quantity = 0 then
          positions1.filter (fun p => p.id ≠ existingPosition.id)
        else positions1
      { portfolio with
          positions := positions2
          realizedPnL := portfolio.realizedPnL + sellEffects.1
          cashBalance := portfolio.cashBalance + sellEffects.2 }
    | none =>
      match trade.side with
      | .buy =>
        let newPosition : Position :=
          { id := "pos_" ++ trade.id
            portfolioId := portfolio.id
            symbol := trade.symbol
            quantity := trade.quantity
            avgPrice := trade.price
            currentPrice := trade.price
            marketValue := trade.quantity * trade.price
            unrealizedPnL := 0
            unrealizedPnLPercent := 0
            entryDate := trade.timestamp
            lastUpdated := trade.timestamp }
        { portfolio with positions := portfolio.positions ++ [newPosition] }
      | .sell => portfolio
  match trade.side with
  | .buy =>
    { afterPosition with cashBalance :=
        afterPosition.cashBalance - (trade.quantity * trade.price + trade.commission) }
  | .sell =>
    { afterPosition with cashBalance :=
        afterPosition.cashBalance + (trade.quantity * trade.price - trade.commission) }

/-- Modelled from the spec: `recalculatePortfolio` is not under src/ (the
portfolioService.ts source is truncated right after `getPerformance`).  Per
§3 "`totalValue == cashBalance + Σ position.marketValue` after every
recalculation pass" and §4.5 it recomputes the aggregate metrics
(`totalValue`, `unrealizedPnL`) and leaves `cashBalance`, `realizedPnL` and
the positions themselves untouched. -/
def recalculatePortfolio (portfolio : Portfolio) : Portfolio :=
  { portfolio with
      totalValue := portfolio.cashBalance +
        (portfolio.positions.map (·.marketValue)).sum
      unrealizedPnL := (portfolio.positions.map (·.unrealizedPnL)).sum }

/-- `PortfolioService.updatePositions` on an already-loaded portfolio:
process each trade, then recalculate (persistence and subscriber
notification carry no portfolio state). -/
def updatePositions (portfolio : Portfolio) (trades : List Trade) : Portfolio :=
  recalculatePortfolio (trades.foldl processTrade portfolio)

end PortfolioService

/-! ## Strategy Engine (src/services/strategyEngine.ts) -/

namespace StrategyEngine

/-- `MarketData` from strategyEngine.ts. -/
structure MarketData where
  symbol : String
  timestamp : ℕ
  open_ : ℚ
  high : ℚ
  low : ℚ
  close : ℚ
  volume : ℚ
  deriving Repr, DecidableEq

/-- Signal direction. -/
inductive SignalType
  | buy
  | sell
  | hold
  deriving Repr, DecidableEq

/-- `Signal` from strategyEngine.ts. -/
structure Signal where
  id : String
  symbol : String
  type : SignalType
  strength : ℚ
  confidence : ℚ
  price : ℚ
  timestamp : ℕ
  strategy : String
  reason : String
  deriving Repr, DecidableEq

/-- A registered strategy: its `execute` capability, which may fail
(modelled with `Except`, the JS `throw`). -/
structure Strategy where
  name : String
  execute : List MarketData → Except String (List Signal)

/-- The strategy-engine state read by `runStrategy`: the registry map and
the enabled set. -/
structure EngineState where
  strategies : List Strategy
  activeStrategies : List String

/-- `StrategyEngine.runStrategy`: throws `Strategy not found` when
unregistered, returns `[]` when registered but not enabled, and catches any
`execute` failure into `[]`. -/
def runStrategy (engine : EngineState) (strategyName : String)
    (marketData : List MarketData) : Except String (List Signal) :=
  match engine.strategies.find? (fun s => s.name = strategyName) with
  | none => .error ("Strategy not found: " ++ strategyName)
  | some strategy =>
    if strategyName ∈ engine.activeStrategies then
      match strategy.execute marketData with
      | .ok signals => .ok signals
      | .error _ => .ok []
    else
      .ok []

/-- JS `Map` grouping in `consolidateSignals`: keys in first-occurrence
order, each group in push order. -/
def insertGrouped (groups : List (String × List Signal)) (s : Signal) :
    List (String × List Signal) :=
  match groups with
  | [] => [(s.symbol, [s])]
  | (k, g) :: rest =>
    if k = s.symbol then (k, g ++ [s]) :: rest else (k, g) :: insertGrouped rest s

/-- The `signalsBySymbol` map of `consolidateSignals`. -/
def groupBySymbol (signals : List Signal) : List (String × List Signal) :=
  signals.foldl insertGrouped []

/-- The body run for one symbol's group in `consolidateSignals` (the
`forEach` callback); `now` stands for `Date.now()`. -/
def consolidateGroup (now : ℕ) (symbol : String) (symbolSignals : List Signal) :
    List Signal :=
  match symbolSignals with
  | [only] => [only]
  | _ =>
    let totalConfidence := (symbolSignals.map (fun s => s.confidence * s.strength)).sum
    let totalWeight := (symbolSignals.map (fun s => s.strength)).sum
    let avgConfidence := totalConfidence / totalWeight
    let buySignals := symbolSignals.filter (fun s => s.type = .buy)
    let sellSignals := symbolSignals.filter (fun s => s.type = .sell)
    let holdSignals := symbolSignals.filter (fun s => s.type = .hold)
    let dominantType : SignalType :=
      if buySignals.length > sellSignals.length ∧
          buySignals.length > holdSignals.length then .buy
      else if sellSignals.length > buySignals.length ∧
          sellSignals.length > holdSignals.length then .sell
      else .hold
    [{ id := "consolidated_" ++ toString now ++ "_" ++ symbol
       symbol := symbol
       type := dominantType
       strength := min 100 (totalWeight / symbolSignals.length)
       confidence := min 1 avgConfidence
       price := (match symbolSignals with | s :: _ => s.price | [] => 0)
       timestamp := now
       strategy := "consolidated"
       reason := "Consolidated from " ++ toString symbolSignals.length ++
         " strategies: " ++ String.intercalate ", "
           (symbolSignals.map (fun s => s.strategy)) }]

/-- `StrategyEngine.consolidateSignals`. -/
def consolidateSignals (now : ℕ) (signals : List Signal) : List Signal :=
  (groupBySymbol signals).foldl
    (fun acc g => acc ++ consolidateGroup now g.1 g.2) []

end StrategyEngine

/-! ## Order Service (src/services/orderService.ts)

The order lifecycle manager.  The clock (`Date.now()`), the random id
suffixes, the market-hours probe and the exchange adapter's answer are the
only non-deterministic inputs; they are gathered in `ExecEnv`. -/

namespace OrderService

open PortfolioService (Side Trade Portfolio)

/-- JS `x || d` on an optional number: `undefined`, `null` and `0` all fall
through to the default. -/
def jsOrNum (x : Option ℚ) (d : ℚ) : ℚ :=
  match x with
  | none => d
  | some v => if v = 0 then d else v

/-- JS `x || d` on an optional string: `undefined`, `null` and `""` fall
through to the default. -/
def jsOrStr (x : Option String) (d : String) : String :=
  match x with
  | none => d
  | some v => if v = "" then d else v

/-- Order type from orderService.ts. -/
inductive OrderType
  | market
  | limit
  | stop
  | stop_limit
  deriving Repr, DecidableEq

/-- Order status state machine from orderService.ts. -/
inductive OrderStatus
  | pending
  | submitted
  | partially_filled
  | filled
  | canceled
  | rejected
  | expired
  deriving Repr, DecidableEq

/-- `OrderRequest` from orderService.ts. -/
structure OrderRequest where
  portfolioId : String
  symbol : String
  side : Side
  type : OrderType
  quantity : ℚ
  price : Option ℚ
  stopPrice : Option ℚ
  timeInForce : Option String
  exchange : String
  stopLoss : Option ℚ
  takeProfit : Option ℚ
  notes : Option String
  deriving Repr, DecidableEq

/-- `Fill` from orderService.ts. -/
structure Fill where
  id : String
  orderId : String
  quantity : ℚ
  price : ℚ
  commission : ℚ
  timestamp : ℕ
  deriving Repr, DecidableEq

/-- `Order` from orderService.ts. -/
structure Order where
  id : String
  portfolioId : String
  symbol : String
  side : Side
  type : OrderType
  quantity : ℚ
  price : ℚ
  stopPrice : Option ℚ
  status : OrderStatus
  filledQuantity : ℚ
  remainingQuantity : ℚ
  avgFillPrice : ℚ
  totalFillValue : ℚ
  commission : ℚ
  exchange : String
  exchangeOrderId : Option String
  timeInForce : String
  stopLoss : Option ℚ
  takeProfit : Option ℚ
  notes : Option String
  createdAt : ℕ
  updatedAt : ℕ
  filledAt : Option ℕ
  fills : List Fill
  rejectionReason : Option String
  deriving Repr, DecidableEq

/-- The `mockPrices` table of `getEstimatedPrice` (fallback 100). -/
def mockPrice (symbol : String) : ℚ :=
  if symbol = "BTC/USD" then 45000
  else if symbol = "ETH/USD" then 3000
  else if symbol = "AAPL" then 150
  else if symbol = "GOOGL" then 2500
  else if symbol = "TSLA" then 800
  else 100

/-- `OrderService.getEstimatedPrice`: base mock price ± 0.1% spread. -/
def getEstimatedPrice (symbol : String) (side : Side) : ℚ :=
  let basePrice := mockPrice symbol
  let spread : ℚ := 1/1000
  match side with
  | .buy => basePrice * (1 + spread)
  | .sell => basePrice * (1 - spread)

/-- JS `String.prototype.toLowerCase` over the ASCII exchange names used
here, written as a character map so that it evaluates. -/
def strToLower (s : String) : String :=
  ⟨s.data.map Char.toLower⟩

/-- The `commissionRates` table of `calculateCommission` keyed by
`exchange.toLowerCase()` (fallback `default` = 0.1%). -/
def commissionRate (exchange : String) : ℚ :=
  let e := strToLower exchange
  if e = "binance" then 1/1000
  else if e = "kraken" then 26/10000
  else if e = "coinbase" then 5/1000
  else if e = "forex.com" then 2/10000
  else if e = "interactive_brokers" then 5/1000
  else 1/1000

/-- `OrderService.calculateCommission`: rate table with a $0.01 floor. -/
def calculateCommission (exchange : String) (orderValue : ℚ) : ℚ :=
  max (1/100) (orderValue * commissionRate exchange)

/-- One entry of `OrderValidation.errors`; each constructor carries the
values interpolated into the source's message string. -/
inductive OrderError
  | symbolRequired
  | quantityNotPositive
  | priceRequired
  | stopPriceRequired
  | portfolioNotFound
  | insufficientCash (required available : ℚ)
  | insufficientPosition (requested available : ℚ)
  | risk (r : RiskService.RejectReason)
  deriving Repr, DecidableEq

/-- The coarse risk level of `OrderValidation.riskAssessment`. -/
inductive RiskLevel
  | low
  | medium
  | high
  deriving Repr, DecidableEq

/-- `OrderValidation` from orderService.ts (`riskAssessment` flattened to
the two fields the code computes). -/
structure OrderValidation where
  valid : Bool
  errors : List OrderError
  warnings : List String
  estimatedCost : ℚ
  estimatedCommission : ℚ
  riskLevel : RiskLevel
  positionSizePercent : ℚ
  deriving Repr, DecidableEq

/-- The `riskService.validateOrder` call made from
`OrderService.validateOrder`.  The ledger `Portfolio` is passed where the
risk service expects its own portfolio shape, so `calculateTotalExposure`
reads `position.size` — a field the ledger's positions do not have.  In JS
that makes the exposure `NaN` whenever `positions` is nonempty, every `NaN`
comparison is false, and the leverage ceiling can then only fire on an
empty book; this value-level consequence is written out below.  The order
passed down always carries `price: estimatedPrice`. -/
def riskValidateOrderCall (limits : RiskService.RiskLimits)
    (request : OrderRequest) (estimatedPrice : ℚ) (portfolio : Portfolio) :
    Option RiskService.RejectReason :=
  if portfolio.positions.length ≥ limits.maxOpenPositions then
    some (.maxPositions limits.maxOpenPositions)
  else
    let orderValue := request.quantity * estimatedPrice
    let positionSizePercent := (orderValue / portfolio.totalValue) * 100
    if positionSizePercent > limits.maxPositionSize then
      some (.positionSize positionSizePercent limits.maxPositionSize)
    else
      let leverage := orderValue / portfolio.totalValue
      if portfolio.positions.isEmpty ∧ leverage > limits.maxLeverage then
        some (.leverage leverage limits.maxLeverage)
      else
        let requiredMargin := orderValue * (1/10)
        if portfolio.freeMargin < requiredMargin then
          some (.margin requiredMargin portfolio.freeMargin)
        else
          let parts := request.symbol.splitOn "/"
          let part0 := parts.getD 0 "undefined"
          let part1 := parts.getD 1 "undefined"
          let similar := portfolio.positions.filter (fun pos =>
            RiskService.strIncludes pos.symbol part0 ||
            RiskService.strIncludes pos.symbol part1)
          let correlation : ℚ := if similar.length > 0 then 1/2 else 0
          if correlation > limits.maxCorrelation then
            some (.correlation correlation limits.maxCorrelation)
          else
            none

/-- `OrderService.validateOrder`.  `marketOpen` stands for the
clock-reading `isMarketOpen` probe (it only contributes a warning). -/
def validateOrder (limits : RiskService.RiskLimits) (marketOpen : Bool)
    (request : OrderRequest) (portfolio? : Option Portfolio) :
    OrderValidation :=
  let fieldErrors : List OrderError :=
    (if request.symbol = "" then [.symbolRequired] else []) ++
    (if request.quantity ≤ 0 then [.quantityNotPositive] else []) ++
    (if (request.type = .limit ∨ request.type = .stop_limit) ∧
        request.price.getD 0 ≤ 0 then [.priceRequired] else []) ++
    (if (request.type = .stop ∨ request.type = .stop_limit) ∧
        request.stopPrice.getD 0 ≤ 0 then [.stopPriceRequired] else [])
  match portfolio? with
  | none =>
    { valid := false
      errors := fieldErrors ++ [.portfolioNotFound]
      warnings := []
      estimatedCost := 0
      estimatedCommission := 0
      riskLevel := .high
      positionSizePercent := 0 }
  | some portfolio =>
    let estimatedPrice := jsOrNum request.price
      (getEstimatedPrice request.symbol request.side)
    let estimatedCost := request.quantity * estimatedPrice
    let estimatedCommission := calculateCommission request.exchange estimatedCost
    let cashErrors : List OrderError :=
      if request.side = .buy ∧
          portfolio.cashBalance < estimatedCost + estimatedCommission then
        [.insufficientCash (estimatedCost + estimatedCommission) portfolio.cashBalance]
      else []
    let positionErrors : List OrderError :=
      if request.side = .sell then
        match portfolio.positions.find? (fun p => p.symbol = request.symbol) with
        | some existingPosition =>
          if existingPosition.quantity < request.quantity then
            [.insufficientPosition request.quantity existingPosition.quantity]
          else []
        | none => [.insufficientPosition request.quantity 0]
      else []
    let riskErrors : List OrderError :=
      match riskValidateOrderCall limits request estimatedPrice portfolio with
      | some r => [.risk r]
      | none => []
    let positionSizePercent := (estimatedCost / portfolio.totalValue) * 100
    let riskLevel0 : RiskLevel :=
      if positionSizePercent > 10 then .high
      else if positionSizePercent > 5 then .medium
      else .low
    let riskLevel := if request.type = .market ∧ riskLevel0 = .low then .medium
      else riskLevel0
    let errors := fieldErrors ++ cashErrors ++ positionErrors ++ riskErrors
    { valid := errors.isEmpty
      errors := errors
      warnings := if ¬marketOpen then ["Market is currently closed"] else []
      estimatedCost := estimatedCost
      estimatedCommission := estimatedCommission
      riskLevel := riskLevel
      positionSizePercent := positionSizePercent }

/-- The non-deterministic inputs of one `executeOrder` pass: the clock, the
generated ids, the market-hours probe and the exchange adapter's reply
(`none` models both a thrown adapter error and a falsy exchange order). -/
structure ExecEnv where
  now : ℕ
  orderId : String
  fillId : String
  tradeId : String
  marketOpen : Bool
  exchangeResult : Option String
  deriving Repr, DecidableEq

/-- `OrderService.createOrder`. -/
def createOrder (env : ExecEnv) (request : OrderRequest) : Order :=
  let estimatedPrice := jsOrNum request.price
    (getEstimatedPrice request.symbol request.side)
  { id := env.orderId
    portfolioId := request.portfolioId
    symbol := request.symbol
    side := request.side
    type := request.type
    quantity := request.quantity
    price := estimatedPrice
    stopPrice := request.stopPrice
    status := .pending
    filledQuantity := 0
    remainingQuantity := request.quantity
    avgFillPrice := 0
    totalFillValue := 0
    commission := 0
    exchange := request.exchange
    exchangeOrderId := none
    timeInForce := jsOrStr request.timeInForce "GTC"
    stopLoss := request.stopLoss
    takeProfit := request.takeProfit
    notes := request.notes
    createdAt := env.now
    updatedAt := env.now
    filledAt := none
    fills := []
    rejectionReason := none }

/-- What one `processExecution` pass produces: the mutated order, the
portfolio after `portfolioService.updatePositions` (when the order filled),
and the derived stop-loss/take-profit requests.  The children re-enter
`executeOrder` asynchronously and best-effort in the source; they are
reported here rather than recursed into (being `stop`/`limit` typed they
never reach `processExecution` themselves). -/
structure ProcessResult where
  order : Order
  portfolio : Option Portfolio
  childStopLoss : Option OrderRequest
  childTakeProfit : Option OrderRequest
  deriving Repr, DecidableEq

/-- The stop-loss child request built by `placeStopLossOrder`. -/
def stopLossRequest (parentOrder : Order) (sl : ℚ) : OrderRequest :=
  { portfolioId := parentOrder.portfolioId
    symbol := parentOrder.symbol
    side := match parentOrder.side with | .buy => .sell | .sell => .buy
    type := .stop
    quantity := parentOrder.filledQuantity
    price := none
    stopPrice := some sl
    timeInForce := some "GTC"
    exchange := parentOrder.exchange
    stopLoss := none
    takeProfit := none
    notes := some ("Stop loss for order " ++ parentOrder.id) }

/-- The take-profit child request built by `takeProfitOrder`. -/
def takeProfitRequest (parentOrder : Order) (tp : ℚ) : OrderRequest :=
  { portfolioId := parentOrder.portfolioId
    symbol := parentOrder.symbol
    side := match parentOrder.side with | .buy => .sell | .sell => .buy
    type := .limit
    quantity := parentOrder.filledQuantity
    price := some tp
    stopPrice := none
    timeInForce := some "GTC"
    exchange := parentOrder.exchange
    stopLoss := none
    takeProfit := none
    notes := some ("Take profit for order " ++ parentOrder.id) }

/-- `OrderService.processExecution`. -/
def processExecution (env : ExecEnv) (order : Order) (quantity price : ℚ)
    (portfolio? : Option Portfolio) : ProcessResult :=
  let fill : Fill :=
    { id := env.fillId
      orderId := order.id
      quantity := quantity
      price := price
      commission := calculateCommission order.exchange (quantity * price)
      timestamp := env.now }
  let o1 := { order with
      fills := order.fills ++ [fill]
      filledQuantity := order.filledQuantity + quantity
      remainingQuantity := max 0 (order.quantity - (order.filledQuantity + quantity))
      commission := order.commission + fill.commission
      totalFillValue := order.totalFillValue + quantity * price }
  let o2 := { o1 with avgFillPrice := o1.totalFillValue / o1.filledQuantity }
  if o2.remainingQuantity = 0 then
    let o3 := { o2 with status := .filled, filledAt := some env.now, updatedAt := env.now }
    let trade : Trade :=
      { id := env.tradeId
        portfolioId := o3.portfolioId
        symbol := o3.symbol
        side := o3.side
        quantity := o3.filledQuantity
        price := o3.avgFillPrice
        timestamp := env.now
        commission := o3.commission
        exchange := o3.exchange }
    { order := o3
      portfolio := portfolio?.map (fun p => PortfolioService.updatePositions p [trade])
      childStopLoss := if o3.stopLoss.getD 0 ≠ 0 then
          some (stopLossRequest o3 (o3.stopLoss.getD 0)) else none
      childTakeProfit := if o3.takeProfit.getD 0 ≠ 0 then
          some (takeProfitRequest o3 (o3.takeProfit.getD 0)) else none }
  else
    { order := { o2 with status := .partially_filled, updatedAt := env.now }
      portfolio := portfolio?
      childStopLoss := none
      childTakeProfit := none }

/-- Execution-report status. -/
inductive ReportStatus
  | success
  | partialExec
  | failed
  deriving Repr, DecidableEq

/-- `ExecutionReport` from orderService.ts. -/
structure ExecutionReport where
  orderId : String
  symbol : String
  side : Side
  executedQuantity : ℚ
  avgPrice : ℚ
  totalValue : ℚ
  commission : ℚ
  status : ReportStatus
  message : String
  timestamp : ℕ
  fills : List Fill
  deriving Repr, DecidableEq

/-- What one `executeOrder` pass produces. -/
structure ExecuteResult where
  report : ExecutionReport
  order : Option Order
  portfolio : Option Portfolio
  childStopLoss : Option OrderRequest
  childTakeProfit : Option OrderRequest
  deriving Repr, DecidableEq

/-- `OrderService.executeOrder`. -/
def executeOrder (limits : RiskService.RiskLimits) (env : ExecEnv)
    (request : OrderRequest) (portfolio? : Option Portfolio) : ExecuteResult :=
  let validation := validateOrder limits env.marketOpen request portfolio?
  if ¬validation.valid then
    { report :=
        { orderId := ""
          symbol := request.symbol
          side := request.side
          executedQuantity := 0
          avgPrice := 0
          totalValue := 0
          commission := 0
          status := .failed
          message := "Order validation failed"
          timestamp := env.now
          fills := [] }
      order := none
      portfolio := portfolio?
      childStopLoss := none
      childTakeProfit := none }
  else
    let order := createOrder env request
    match env.exchangeResult with
    | some exchangeOrderId =>
      let o1 := { order with
          exchangeOrderId := some exchangeOrderId
          status := .submitted
          updatedAt := env.now }
      let pr :=
        if request.type = .market then
          processExecution env o1 request.quantity
            (validation.estimatedCost / request.quantity) portfolio?
        else
          { order := o1, portfolio := portfolio?,
            childStopLoss := none, childTakeProfit := none }
      { report :=
          { orderId := pr.order.id
            symbol := pr.order.symbol
            side := pr.order.side
            executedQuantity := pr.order.filledQuantity
            avgPrice := pr.order.avgFillPrice
            totalValue := pr.order.totalFillValue
            commission := pr.order.commission
            status := if pr.order.status = .filled then .success else .partialExec
            message := if pr.order.status = .filled then
                "Order executed successfully" else "Order partially executed"
            timestamp := env.now
            fills := pr.order.fills }
        order := some pr.order
        portfolio := pr.portfolio
        childStopLoss := pr.childStopLoss
        childTakeProfit := pr.childTakeProfit }
    | none =>
      let o2 := { order with
          status := .rejected
          rejectionReason := some "Failed to submit order to exchange"
          updatedAt := env.now }
      { report :=
          { orderId := o2.id
            symbol := request.symbol
            side := request.side
            executedQuantity := 0
            avgPrice := 0
            totalValue := 0
            commission := 0
            status := .failed
            message := "Order execution failed"
            timestamp := env.now
            fills := [] }
        order := some o2
        portfolio := portfolio?
        childStopLoss := none
        childTakeProfit := none }

/-- `OrderService.cancelOrder` on the order looked up by id (`none`: unknown
id).  `adapterOk` is whether `exchangeService.cancelOrder` succeeds when it
is reached; a throw is caught and leaves the order untouched. -/
def cancelOrder (now : ℕ) (order? : Option Order) (adapterOk : Bool) :
    Bool × Option Order :=
  match order? with
  | none => (false, none)
  | some order =>
    if order.status = .filled ∨ order.status = .canceled ∨
        order.status = .rejected then
      (false, some order)
    else if order.exchangeOrderId.isSome ∧ order.status = .submitted ∧
        ¬adapterOk then
      (false, some order)
    else
      (true, some { order with status := .canceled, updatedAt := now })

/-- `OrderService.modifyOrder`.  `adapterCancelOk` is whether the exchange
cancel succeeds; `resubmitResult` is the resubmission's exchange order id
(`none` models both a falsy reply and a throw — in either case the
in-memory mutations have already been applied). -/
def modifyOrder (now : ℕ) (order? : Option Order)
    (price? quantity? stopPrice? : Option ℚ) (adapterCancelOk : Bool)
    (resubmitResult : Option String) : Bool × Option Order :=
  match order? with
  | none => (false, none)
  | some order =>
    if order.status ≠ .submitted then (false, some order)
    else if order.exchangeOrderId.isSome ∧ ¬adapterCancelOk then
      (false, some order)
    else
      let o1 := match price? with
        | some p => { order with price := p }
        | none => order
      let o2 := match quantity? with
        | some q =>
          { o1 with
              quantity := q
              remainingQuantity := q - o1.filledQuantity }
        | none => o1
      let o3 := match stopPrice? with
        | some sp => { o2 with stopPrice := some sp }
        | none => o2
      match resubmitResult with
      | some newId =>
        (true, some { o3 with exchangeOrderId := some newId, updatedAt := now })
      | none => (false, some o3)

/-- A persisted `orders` row as `mapDatabaseToOrder` reads it; numeric
columns may come back null. -/
structure DbOrderRow where
  id : String
  portfolio_id : String
  symbol : String
  side : Side
  type : OrderType
  quantity : ℚ
  price : ℚ
  stop_price : Option ℚ
  status : OrderStatus
  filled_quantity : Option ℚ
  remaining_quantity : Option ℚ
  avg_fill_price : Option ℚ
  total_fill_value : Option ℚ
  commission : Option ℚ
  exchange : String
  exchange_order_id : Option String
  time_in_force : Option String
  stop_loss : Option ℚ
  take_profit : Option ℚ
  notes : Option String
  created_at : ℕ
  updated_at : Option ℕ
  filled_at : Option ℕ
  rejection_reason : Option String
  deriving Repr, DecidableEq

/-- `OrderService.mapDatabaseToOrder`: every `||` fallback is the JS falsy
one, so a stored numeric `0` also falls through to the default. -/
def mapDatabaseToOrder (data : DbOrderRow) : Order :=
  { id := data.id
    portfolioId := data.portfolio_id
    symbol := data.symbol
    side := data.side
    type := data.type
    quantity := data.quantity
    price := data.price
    stopPrice := data.stop_price
    status := data.status
    filledQuantity := jsOrNum data.filled_quantity 0
    remainingQuantity := jsOrNum data.remaining_quantity data.quantity
    avgFillPrice := jsOrNum data.avg_fill_price 0
    totalFillValue := jsOrNum data.total_fill_value 0
    commission := jsOrNum data.commission 0
    exchange := data.exchange
    exchangeOrderId := data.exchange_order_id
    timeInForce := jsOrStr data.time_in_force "GTC"
    stopLoss := data.stop_loss
    takeProfit := data.take_profit
    notes := data.notes
    createdAt := data.created_at
    updatedAt := data.updated_at.getD data.created_at
    filledAt := data.filled_at
    fills := []
    rejectionReason := data.rejection_reason }

end OrderService

/-! ## Claim theorems -/

/-- C3 counterexample: with the service's default risk limits
(`maxPositionSize = 10`%), the documented example account — balance 10000,
risk 2%, entry 100, stop 98 — is capped at `10000·10%/100 = 10` shares, not
the 100 shares the claim states. -/
theorem C3_counterexample :
    RiskService.calculatePositionSize RiskService.defaultRiskLimits
      ⟨10000, 10000, 0, 10000, 100⟩ 2 100 98 = .ok 10 ∧ (10 : ℚ) ≠ 100 := by
  refine ⟨?_, by norm_num⟩
  have h2 : |(100 : ℚ) - 98| = 2 := by norm_num
  simp only [RiskService.calculatePositionSize, RiskService.defaultRiskLimits, h2]
  norm_num [min_def]

/-- C3 (amended): `calculatePositionSize` fails when entry equals stop and
otherwise returns `min(balance·risk%/|entry−stop|,
balance·maxPositionSize%/entry)`; on the example account the default 10%
cap binds and the result is 10 shares (100 would require
`maxPositionSize ≥ 100`). -/
theorem C3_position_size (limits : RiskService.RiskLimits)
    (account : RiskService.Account) (r e s : ℚ) (h : e ≠ s) :
    RiskService.calculatePositionSize limits account r e s =
      .ok (min (account.balance * (r / 100) / |e - s|)
        (account.balance * (limits.maxPositionSize / 100) / e)) ∧
    RiskService.calculatePositionSize limits account r e e =
      .error "Stop loss distance cannot be zero" := by
  constructor
  · have hd : |e - s| ≠ 0 := by
      simp [abs_eq_zero, sub_eq_zero, h]
    simp [RiskService.calculatePositionSize, hd]
  · simp [RiskService.calculatePositionSize]

/-- C3 witness: the general formula applied to the documented example. -/
theorem C3_position_size_witness :
    RiskService.calculatePositionSize RiskService.defaultRiskLimits
      ⟨10000, 10000, 0, 10000, 100⟩ 2 100 98 =
      .ok (min ((10000 : ℚ) * (2 / 100) / |100 - 98|)
        (10000 * ((10 : ℚ) / 100) / 100)) :=
  (C3_position_size RiskService.defaultRiskLimits
    ⟨10000, 10000, 0, 10000, 100⟩ 2 100 98 (by norm_num)).1

/-- C10 counterexample: with the default limits, a priced-less order against
a portfolio whose existing exposure is 400 on a total value of 100 is
rejected by the *leverage* check (4x > 3x) — so the leverage check can
reject an order with an undefined price, contrary to the claim. -/
theorem C10_counterexample :
    RiskService.validateOrder RiskService.defaultRiskLimits
      ⟨"BTC/USD", true, 1, none, none, none⟩
      ⟨100, [⟨"XAU", 10, 40, 40, 0, none⟩], 0⟩
      ⟨1000, 1000, 0, 1000, 100⟩ =
      some (.leverage 4 3) ∧
    (⟨"BTC/USD", true, 1, none, none, none⟩ :
      RiskService.ROrderRequest).price = none := by
  constructor
  · have h1 : ¬((1 : ℕ) ≥ 10) := by norm_num
    have hexp : RiskService.calculateTotalExposure
        ⟨100, [⟨"XAU", 10, 40, 40, 0, none⟩], 0⟩ = 400 := by
      norm_num [RiskService.calculateTotalExposure]
    simp only [RiskService.validateOrder, RiskService.defaultRiskLimits, hexp]
    norm_num
  · rfl

/-- C10 (amended): for an order whose price is `undefined`, `validateOrder`
computes a zero notional and zero required margin, so (for a nonnegative
`maxPositionSize` limit) the position-size check never rejects, and the
margin check never rejects unless `freeMargin` is already negative; the
max-open-positions, leverage (driven by the existing exposure alone) and
correlation checks can still reject. -/
theorem C10_price_undefined (limits : RiskService.RiskLimits)
    (order : RiskService.ROrderRequest) (portfolio : RiskService.RPortfolio)
    (account : RiskService.Account) (hp : order.price = none)
    (hm : 0 ≤ limits.maxPositionSize) :
    RiskService.calculateRequiredMargin order = 0 ∧
    (∀ pct lim, RiskService.validateOrder limits order portfolio account ≠
      some (.positionSize pct lim)) ∧
    (0 ≤ account.freeMargin →
      ∀ req avail, RiskService.validateOrder limits order portfolio account ≠
        some (.margin req avail)) := by
  have h2 : ¬((0 : ℚ) > limits.maxPositionSize) := not_lt.mpr hm
  refine ⟨?_, ?_, ?_⟩
  · simp [RiskService.calculateRequiredMargin, hp]
  · intro pct lim
    simp only [RiskService.validateOrder, RiskService.calculateRequiredMargin,
      hp, Option.getD_none, mul_zero, zero_div, zero_mul, add_zero]
    split_ifs <;> simp_all
  · intro hfm req avail
    have h3 : ¬(account.freeMargin < 0) := not_lt.mpr hfm
    simp only [RiskService.validateOrder, RiskService.calculateRequiredMargin,
      hp, Option.getD_none, mul_zero, zero_div, zero_mul, add_zero]
    split_ifs <;> simp_all

/-- C10 witness: the amended statement applied to the counterexample's
priced-less order. -/
theorem C10_price_undefined_witness :
    RiskService.calculateRequiredMargin
      ⟨"BTC/USD", true, 1, none, none, none⟩ = 0 ∧
    (∀ pct lim, RiskService.validateOrder RiskService.defaultRiskLimits
      ⟨"BTC/USD", true, 1, none, none, none⟩
      ⟨100, [⟨"XAU", 10, 40, 40, 0, none⟩], 0⟩
      ⟨1000, 1000, 0, 1000, 100⟩ ≠ some (.positionSize pct lim)) :=
  ⟨(C10_price_undefined RiskService.defaultRiskLimits
      ⟨"BTC/USD", true, 1, none, none, none⟩
      ⟨100, [⟨"XAU", 10, 40, 40, 0, none⟩], 0⟩
      ⟨1000, 1000, 0, 1000, 100⟩ rfl
      (by norm_num [RiskService.defaultRiskLimits])).1,
   (C10_price_undefined RiskService.defaultRiskLimits
      ⟨"BTC/USD", true, 1, none, none, none⟩
      ⟨100, [⟨"XAU", 10, 40, 40, 0, none⟩], 0⟩
      ⟨1000, 1000, 0, 1000, 100⟩ rfl
      (by norm_num [RiskService.defaultRiskLimits])).2.1⟩

/-- A resting order used to exercise `cancelOrder` at each status. -/
def sampleOrder (st : OrderService.OrderStatus) : OrderService.Order :=
  { id := "order_1"
    portfolioId := "p1"
    symbol := "BTC/USD"
    side := .buy
    type := .limit
    quantity := 2
    price := 45000
    stopPrice := none
    status := st
    filledQuantity := 0
    remainingQuantity := 2
    avgFillPrice := 0
    totalFillValue := 0
    commission := 0
    exchange := "binance"
    exchangeOrderId := some "ex_1"
    timeInForce := "GTC"
    stopLoss := none
    takeProfit := none
    notes := none
    createdAt := 1
    updatedAt := 1
    filledAt := none
    fills := []
    rejectionReason := none }

/-- C4 counterexample: `cancelOrder` on an *expired* order is not a no-op —
the terminal-status guard omits `expired`, so the order is transitioned to
`canceled` and `true` is returned. -/
theorem C4_counterexample :
    (OrderService.cancelOrder 5 (some (sampleOrder .expired)) true).1 = true ∧
    ((OrderService.cancelOrder 5 (some (sampleOrder .expired)) true).2.map
      (fun o => o.status)) = some .canceled := by
  constructor
  · rfl
  · rfl

/-- C4 (amended): `cancelOrder` is a no-op returning `false` for an order
already `filled`, `canceled` or `rejected`; an order in the fourth terminal
status, `expired`, is instead transitioned to `canceled` with `true`
returned. -/
theorem C4_cancel_terminal (now : ℕ) (order : OrderService.Order)
    (adapterOk : Bool) :
    (order.status = .filled ∨ order.status = .canceled ∨
        order.status = .rejected →
      OrderService.cancelOrder now (some order) adapterOk =
        (false, some order)) ∧
    (order.status = .expired →
      OrderService.cancelOrder now (some order) adapterOk =
        (true, some { order with status := .canceled, updatedAt := now })) := by
  constructor
  · intro h
    simp [OrderService.cancelOrder, h]
  · intro h
    have h1 : ¬(order.status = OrderService.OrderStatus.filled ∨
        order.status = .canceled ∨ order.status = .rejected) := by
      simp [h]
    have h2 : ¬(order.exchangeOrderId.isSome ∧
        order.status = OrderService.OrderStatus.submitted ∧ ¬adapterOk) := by
      simp [h]
    simp [OrderService.cancelOrder, h1, h2]
    intro _ hs
    simp [h] at hs

/-- C4 witness: the no-op branch at a concrete filled order. -/
theorem C4_cancel_terminal_witness :
    OrderService.cancelOrder 5 (some (sampleOrder .filled)) true =
      (false, some (sampleOrder .filled)) :=
  (C4_cancel_terminal 5 (sampleOrder .filled) true).1 (Or.inl rfl)

/-- A persisted row for a fully filled order, exactly as `saveOrder` writes
it (`remaining_quantity` stored as `0`). -/
def filledRow : OrderService.DbOrderRow :=
  { id := "order_1"
    portfolio_id := "p1"
    symbol := "BTC/USD"
    side := .buy
    type := .market
    quantity := 10
    price := 45045
    stop_price := none
    status := .filled
    filled_quantity := some 10
    remaining_quantity := some 0
    avg_fill_price := some 45045
    total_fill_value := some 450450
    commission := some 450
    exchange := "binance"
    exchange_order_id := some "ex_1"
    time_in_force := some "GTC"
    stop_loss := none
    take_profit := none
    notes := none
    created_at := 1
    updated_at := some 2
    filled_at := some 2
    rejection_reason := none }

/-- C6: reloading a fully filled order breaks the quantity invariant — the
`||` fallback reads the stored `remaining_quantity = 0` as missing and
substitutes the full `quantity`, so `filledQuantity + remainingQuantity`
comes back as `20` on an order of quantity `10`. -/
theorem C6_reload_breaks_invariant :
    (OrderService.mapDatabaseToOrder filledRow).filledQuantity = 10 ∧
    (OrderService.mapDatabaseToOrder filledRow).remainingQuantity = 10 ∧
    (OrderService.mapDatabaseToOrder filledRow).quantity = 10 ∧
    (OrderService.mapDatabaseToOrder filledRow).filledQuantity +
        (OrderService.mapDatabaseToOrder filledRow).remainingQuantity ≠
      (OrderService.mapDatabaseToOrder filledRow).quantity := by
  refine ⟨rfl, rfl, rfl, ?_⟩
  norm_num [OrderService.mapDatabaseToOrder, filledRow, OrderService.jsOrNum]

/-- C1: a sell trade against an existing position credits the cash balance
*twice* — once inside the sell branch and once in the generic cash update —
for a total of `2·(quantity·price − commission)`; the realized-P&L booking
itself matches the claim. -/
theorem C1_sell_double_credit (portfolio : PortfolioService.Portfolio)
    (trade : PortfolioService.Trade) (pos : PortfolioService.Position)
    (hside : trade.side = .sell)
    (hfind : portfolio.positions.find?
      (fun p => p.symbol = trade.symbol) = some pos) :
    (PortfolioService.processTrade portfolio trade).cashBalance =
      portfolio.cashBalance +
        2 * (trade.quantity * trade.price - trade.commission) ∧
    (PortfolioService.processTrade portfolio trade).realizedPnL =
      portfolio.realizedPnL + trade.quantity * (trade.price - pos.avgPrice) := by
  simp only [PortfolioService.processTrade, hfind, hside]
  constructor
  · ring_nf
  · ring_nf

/-- A portfolio holding 10 BTC/USD at average entry 100, with 1000 cash. -/
def samplePortfolio : PortfolioService.Portfolio :=
  { id := "p1"
    totalValue := 2000
    totalEquity := 2000
    cashBalance := 1000
    marginUsed := 0
    freeMargin := 1000
    unrealizedPnL := 0
    realizedPnL := 0
    positions := [
      { id := "pos1"
        portfolioId := "p1"
        symbol := "BTC/USD"
        quantity := 10
        avgPrice := 100
        currentPrice := 100
        marketValue := 1000
        unrealizedPnL := 0
        unrealizedPnLPercent := 0
        entryDate := 0
        lastUpdated := 0 }] }

/-- A sale of 5 units at 110 with commission 1. -/
def sellTrade : PortfolioService.Trade :=
  { id := "t1"
    portfolioId := "p1"
    symbol := "BTC/USD"
    side := .sell
    quantity := 5
    price := 110
    timestamp := 1
    commission := 1
    exchange := "binance" }

/-- C1 witness: on the sample portfolio the sale of 5@110 (commission 1)
moves cash by `2·549 = 1098` instead of the claimed single credit of 549. -/
theorem C1_sell_double_credit_witness :
    (PortfolioService.processTrade samplePortfolio sellTrade).cashBalance =
      samplePortfolio.cashBalance +
        2 * (sellTrade.quantity * sellTrade.price - sellTrade.commission) :=
  (C1_sell_double_credit samplePortfolio sellTrade
    (samplePortfolio.positions.get ⟨0, by simp [samplePortfolio]⟩)
    rfl rfl).1

/-- C8: the historical VaR method picks, from the ascending sort of the
portfolio returns, the element at index `⌊(1−confidence)·n⌋` and scales it
by `√timeHorizon · totalValue` (in absolute value); at 95% confidence that
index is `⌊0.05·n⌋`. -/
theorem C8_historical_var (returns : List ℚ) (c sqrtH V : ℚ)
    (hne : returns ≠ []) (hc : c ≤ 1) :
    ∃ sorted : List ℚ, sorted.Perm returns ∧ sorted.Sorted (· ≤ ·) ∧
      RiskService.calculateHistoricalVaR returns c sqrtH V =
        |sorted.getD (⌊(1 - c) * returns.length⌋ : ℤ).toNat 0 * sqrtH * V| ∧
      ⌊((1 : ℚ) - 95/100) * returns.length⌋ =
        ⌊(5/100 : ℚ) * returns.length⌋ := by
  have hlen : returns.length ≠ 0 := by simpa using hne
  have hidx : (0 : ℤ) ≤ ⌊(1 - c) * returns.length⌋ := by
    apply Int.floor_nonneg.mpr
    have h1 : (0 : ℚ) ≤ 1 - c := by linarith
    have h2 : (0 : ℚ) ≤ returns.length := by positivity
    exact mul_nonneg h1 h2
  refine ⟨returns.mergeSort (fun a b => a ≤ b), List.mergeSort_perm _ _,
    ?_, ?_, by norm_num⟩
  · exact List.sorted_mergeSort' _
  · simp only [RiskService.calculateHistoricalVaR, if_neg hlen, if_pos hidx]

/-- C8 witness: the characterisation applied to a concrete 4-return series
at 95% confidence. -/
theorem C8_historical_var_witness :
    ∃ sorted : List ℚ, sorted.Perm [2, -3, 1, -1] ∧ sorted.Sorted (· ≤ ·) ∧
      RiskService.calculateHistoricalVaR [2, -3, 1, -1] (95/100) 1 1000 =
        |sorted.getD (⌊((1 : ℚ) - 95/100) * (4 : ℕ)⌋ : ℤ).toNat 0 * 1 * 1000| ∧
      ⌊((1 : ℚ) - 95/100) * (([2, -3, 1, -1] : List ℚ).length : ℕ)⌋ =
        ⌊(5/100 : ℚ) * (([2, -3, 1, -1] : List ℚ).length : ℕ)⌋ :=
  C8_historical_var [2, -3, 1, -1] (95/100) 1 1000 (by simp) (by norm_num)

/-- C9: `runStrategy` returns an empty list for a registered-but-disabled
strategy, throws `Strategy not found` for an unregistered one, and maps an
`execute` failure of an enabled strategy to an empty list instead of
propagating it. -/
theorem C9_runStrategy (engine : StrategyEngine.EngineState) (name : String)
    (md : List StrategyEngine.MarketData) :
    (∀ strat, engine.strategies.find? (fun s => s.name = name) = some strat →
      name ∉ engine.activeStrategies →
      StrategyEngine.runStrategy engine name md = .ok []) ∧
    (engine.strategies.find? (fun s => s.name = name) = none →
      StrategyEngine.runStrategy engine name md =
        .error ("Strategy not found: " ++ name)) ∧
    (∀ strat e, engine.strategies.find? (fun s => s.name = name) = some strat →
      name ∈ engine.activeStrategies → strat.execute md = .error e →
      StrategyEngine.runStrategy engine name md = .ok []) := by
  refine ⟨?_, ?_, ?_⟩
  · intro strat hfind hact
    simp [StrategyEngine.runStrategy, hfind, hact]
  · intro hfind
    simp [StrategyEngine.runStrategy, hfind]
  · intro strat e hfind hact hexec
    simp [StrategyEngine.runStrategy, hfind, hact, hexec]

/-- An engine with one enabled strategy whose execute step always throws. -/
def failingEngine : StrategyEngine.EngineState :=
  { strategies := [⟨"macd-cross", fun _ => .error "boom"⟩]
    activeStrategies := ["macd-cross"] }

/-- C9 witness: the failure-isolation branch on the failing engine. -/
theorem C9_runStrategy_witness :
    StrategyEngine.runStrategy failingEngine "macd-cross" [] = .ok [] :=
  (C9_runStrategy failingEngine "macd-cross" []).2.2
    ⟨"macd-cross", fun _ => .error "boom"⟩ "boom" rfl (by simp [failingEngine]) rfl

/-- Inserting a signal of the same symbol into a one-group map appends it
to that group. -/
theorem insertGrouped_same (sym : String) (g : List StrategyEngine.Signal)
    (s : StrategyEngine.Signal) (h : s.symbol = sym) :
    StrategyEngine.insertGrouped [(sym, g)] s = [(sym, g ++ [s])] := by
  simp [StrategyEngine.insertGrouped, h]

/-- Folding signals of one symbol over a one-group map appends them all. -/
theorem foldl_insertGrouped_const (sym : String) :
    ∀ (l : List StrategyEngine.Signal) (g : List StrategyEngine.Signal),
      (∀ s ∈ l, s.symbol = sym) →
      List.foldl StrategyEngine.insertGrouped [(sym, g)] l = [(sym, g ++ l)] := by
  intro l
  induction l with
  | nil => intro g _; simp
  | cons a t ih =>
    intro g h
    have ha : a.symbol = sym := h a (by simp)
    rw [List.foldl_cons, insertGrouped_same sym g a ha,
      ih (g ++ [a]) (fun s hs => h s (by simp [hs]))]
    simp

/-- `signalsBySymbol` for signals that all share one symbol is a single
group holding them in order. -/
theorem groupBySymbol_const (sym : String)
    (signals : List StrategyEngine.Signal)
    (h : ∀ s ∈ signals, s.symbol = sym) (hne : signals ≠ []) :
    StrategyEngine.groupBySymbol signals = [(sym, signals)] := by
  cases signals with
  | nil => simp at hne
  | cons a t =>
    have ha : a.symbol = sym := h a (by simp)
    unfold StrategyEngine.groupBySymbol
    rw [List.foldl_cons]
    have h0 : StrategyEngine.insertGrouped [] a = [(sym, [a])] := by
      simp [StrategyEngine.insertGrouped, ha]
    rw [h0, foldl_insertGrouped_const sym t [a]
      (fun s hs => h s (by simp [hs]))]
    simp

/-- A signal literal used by the consolidation example. -/
def mkSig (strategy : String) (ty : StrategyEngine.SignalType)
    (strength confidence : ℚ) : StrategyEngine.Signal :=
  { id := strategy
    symbol := "BTC/USD"
    type := ty
    strength := strength
    confidence := confidence
    price := 45000
    timestamp := 0
    strategy := strategy
    reason := "" }

/-- C5: consolidating two-or-more same-symbol signals yields exactly one
signal whose confidence is the strength-weighted average
`Σ(confidence·strength)/Σstrength` capped at 1 and whose type is the strict
plurality of buy/sell/hold counts with ties falling to hold; in particular
`{buy@80, buy@60, sell@50}` consolidates to `buy`. -/
theorem C5_consolidation (now : ℕ) (sym : String)
    (signals : List StrategyEngine.Signal)
    (hsym : ∀ s ∈ signals, s.symbol = sym) (hlen : 2 ≤ signals.length)
    (hw : (signals.map (fun s => s.strength)).sum ≠ 0) :
    ((StrategyEngine.consolidateSignals now signals).length = 1 ∧
      (StrategyEngine.consolidateSignals now signals).map
        (fun c => c.confidence) =
        [min 1 ((signals.map (fun s => s.confidence * s.strength)).sum /
          (signals.map (fun s => s.strength)).sum)] ∧
      (StrategyEngine.consolidateSignals now signals).map (fun c => c.type) =
        [if (signals.filter (fun s => s.type = .buy)).length >
              (signals.filter (fun s => s.type = .sell)).length ∧
            (signals.filter (fun s => s.type = .buy)).length >
              (signals.filter (fun s => s.type = .hold)).length then .buy
          else if (signals.filter (fun s => s.type = .sell)).length >
              (signals.filter (fun s => s.type = .buy)).length ∧
            (signals.filter (fun s => s.type = .sell)).length >
              (signals.filter (fun s => s.type = .hold)).length then .sell
          else .hold]) ∧
    (StrategyEngine.consolidateSignals 0
      [mkSig "ma-cross" .buy 80 (7/10), mkSig "rsi" .buy 60 (6/10),
        mkSig "macd" .sell 50 (9/10)]).map (fun c => c.type) = [.buy] := by
  constructor
  · rcases signals with _ | ⟨a, _ | ⟨b, t⟩⟩
    · simp at hlen
    · simp at hlen
    · have hg := groupBySymbol_const sym (a :: b :: t) hsym (by simp)
      refine ⟨?_, ?_, ?_⟩ <;>
        simp [StrategyEngine.consolidateSignals, hg,
          StrategyEngine.consolidateGroup]
  · decide

/-- C5 witness: the characterisation applied to two concrete signals. -/
theorem C5_consolidation_witness :
    (StrategyEngine.consolidateSignals 7
      [mkSig "a" .buy 80 (7/10), mkSig "b" .sell 60 (6/10)]).length = 1 :=
  ((C5_consolidation 7 "BTC/USD"
    [mkSig "a" .buy 80 (7/10), mkSig "b" .sell 60 (6/10)]
    (by decide) (by decide) (by norm_num [mkSig])).1).1

/-- C7 counterexample: `atr` on a 2-bar series with period 14 — input
shorter than the indicator's period — returns a non-empty result, so not
every indicator returns an empty result below its period. -/
theorem C7_counterexample :
    TechnicalIndicators.atr [1, 1] [1, 1] [1, 1] 14 = [0] ∧
    ([0] : List ℚ) ≠ [] ∧ ([1, 1] : List ℚ).length < 14 := by
  refine ⟨?_, by simp, by simp⟩
  norm_num [TechnicalIndicators.atr, TechnicalIndicators.ema, List.range']

/-- C7 (amended): every indicator returns an empty result (and never
throws) for inputs shorter than its own minimum-length guard — `period` for
sma/bollingerBands/cci/williamsR, `period+1` for rsi/mfi, `kPeriod` for
stochastic, `slowPeriod` for macd, 2 bars for atr/parabolicSAR, 1 bar for
ema, `2·lookback+1` for findSupportResistance, and the 9/26/52-bar periods
for ichimoku's computed lines (its lagging span always echoes the closes);
`vwap` never throws on equal-length inputs; `atr` with at least 2 but fewer
than `period` bars returns a non-empty series (see the counterexample). -/
theorem C7_short_input_empty (prices highs lows closes volumes : List ℚ)
    (period fast slow sig kPeriod dPeriod lookback : ℕ) (sqrtF : ℚ → ℚ)
    (sd step maxAF : ℚ) :
    (prices.length < period → TechnicalIndicators.sma prices period = []) ∧
    (TechnicalIndicators.ema [] period = []) ∧
    (prices.length < period + 1 → TechnicalIndicators.rsi prices period = []) ∧
    (prices.length < slow → TechnicalIndicators.macd prices fast slow sig = []) ∧
    (prices.length < period →
      TechnicalIndicators.bollingerBands sqrtF prices period sd = []) ∧
    (highs.length < kPeriod ∨ lows.length < kPeriod ∨ closes.length < kPeriod →
      TechnicalIndicators.stochastic highs lows closes kPeriod dPeriod = []) ∧
    (highs.length < 2 ∨ lows.length < 2 ∨ closes.length < 2 →
      TechnicalIndicators.atr highs lows closes period = []) ∧
    (highs.length < period →
      TechnicalIndicators.cci highs lows closes period = []) ∧
    (highs.length < period →
      TechnicalIndicators.williamsR highs lows closes period = []) ∧
    (highs.length < 2 ∨ lows.length < 2 →
      TechnicalIndicators.parabolicSAR highs lows step maxAF = []) ∧
    (highs.length = lows.length → lows.length = closes.length →
      closes.length = volumes.length →
      ∃ out, TechnicalIndicators.vwap highs lows closes volumes = .ok out) ∧
    (TechnicalIndicators.vwap [] [] [] [] = .ok []) ∧
    (highs.length < period + 1 →
      TechnicalIndicators.mfi highs lows closes volumes period = []) ∧
    (highs.length ≤ 2 * lookback →
      TechnicalIndicators.findSupportResistance highs lows lookback = ([], [])) ∧
    (highs.length < 9 →
      (TechnicalIndicators.ichimoku highs lows closes).conversionLine = [] ∧
      (TechnicalIndicators.ichimoku highs lows closes).baseLine = [] ∧
      (TechnicalIndicators.ichimoku highs lows closes).leadingSpanA = [] ∧
      (TechnicalIndicators.ichimoku highs lows closes).leadingSpanB = [] ∧
      (TechnicalIndicators.ichimoku highs lows closes).laggingSpan = closes) := by
  refine ⟨?_, rfl, ?_, ?_, ?_, ?_, ?_, ?_, ?_, ?_, ?_, rfl, ?_, ?_, ?_⟩
  · intro h
    unfold TechnicalIndicators.sma
    rw [if_pos h]
  · intro h
    unfold TechnicalIndicators.rsi
    rw [if_pos h]
  · intro h
    unfold TechnicalIndicators.macd
    rw [if_pos h]
  · intro h
    unfold TechnicalIndicators.bollingerBands
    rw [if_pos h]
  · intro h
    unfold TechnicalIndicators.stochastic
    rw [if_pos h]
  · intro h
    unfold TechnicalIndicators.atr
    rw [if_pos h]
  · intro h
    unfold TechnicalIndicators.cci
    rw [if_pos h]
  · intro h
    unfold TechnicalIndicators.williamsR
    rw [if_pos h]
  · intro h
    unfold TechnicalIndicators.parabolicSAR
    rw [if_pos h]
  · intro h1 h2 h3
    unfold TechnicalIndicators.vwap
    rw [if_neg (by simp [h1, h2, h3])]
    exact ⟨_, rfl⟩
  · intro h
    unfold TechnicalIndicators.mfi
    rw [if_pos h]
  · intro h
    have h0 : (highs.length - lookback) - lookback = 0 := by omega
    unfold TechnicalIndicators.findSupportResistance
    rw [h0]
    rfl
  · intro h
    have e9 : highs.length - 8 = 0 := by omega
    have e25 : highs.length - 25 = 0 := by omega
    have e51 : highs.length - 51 = 0 := by omega
    refine ⟨?_, ?_, ?_, ?_, rfl⟩ <;>
      simp [TechnicalIndicators.ichimoku, TechnicalIndicators.ichimokuLine,
        e9, e25, e51]

/-- C7 witness: the guard facts applied to concrete short inputs. -/
theorem C7_short_input_empty_witness :
    TechnicalIndicators.sma [1, 2] 5 = [] ∧
    TechnicalIndicators.rsi [1, 2, 3] 14 = [] ∧
    TechnicalIndicators.atr [1] [1] [1] 14 = [] ∧
    TechnicalIndicators.mfi [1, 2] [1, 2] [1, 2] [1, 2] 14 = [] ∧
    TechnicalIndicators.findSupportResistance [1, 2, 3] [1, 2, 3] 20 = ([], []) ∧
    (TechnicalIndicators.ichimoku [1, 2] [1, 2] [1, 2]).conversionLine = [] := by
  refine ⟨?_, ?_, ?_, ?_, ?_, ?_⟩
  · exact (C7_short_input_empty [1, 2] [] [] [] [] 5 0 0 0 0 0 0 (fun x => x)
      0 0 0).1 (by simp)
  · exact (C7_short_input_empty [1, 2, 3] [] [] [] [] 14 0 0 0 0 0 0
      (fun x => x) 0 0 0).2.2.1 (by simp)
  · exact (C7_short_input_empty [] [1] [1] [1] [] 14 0 0 0 0 0 0 (fun x => x)
      0 0 0).2.2.2.2.2.2.1 (by simp)
  · exact (C7_short_input_empty [] [1, 2] [1, 2] [1, 2] [1, 2] 14 0 0 0 0 0 0
      (fun x => x) 0 0 0).2.2.2.2.2.2.2.2.2.2.2.2.1 (by simp)
  · exact (C7_short_input_empty [] [1, 2, 3] [1, 2, 3] [] [] 0 0 0 0 0 0 20
      (fun x => x) 0 0 0).2.2.2.2.2.2.2.2.2.2.2.2.2.1 (by simp)
  · exact ((C7_short_input_empty [] [1, 2] [1, 2] [1, 2] [] 0 0 0 0 0 0 0
      (fun x => x) 0 0 0).2.2.2.2.2.2.2.2.2.2.2.2.2.2 (by simp)).1

/-- A buy trade debits cash by exactly `quantity·price + commission`,
whether or not a position already exists. -/
theorem processTrade_buy_cashBalance (portfolio : PortfolioService.Portfolio)
    (trade : PortfolioService.Trade) (h : trade.side = .buy) :
    (PortfolioService.processTrade portfolio trade).cashBalance =
      portfolio.cashBalance -
        (trade.quantity * trade.price + trade.commission) := by
  simp only [PortfolioService.processTrade, h]
  cases hf : portfolio.positions.find? (fun p => p.symbol = trade.symbol) <;>
    simp [hf]

/-- The modelled recalculation pass does not move cash. -/
theorem recalculatePortfolio_cashBalance (p : PortfolioService.Portfolio) :
    (PortfolioService.recalculatePortfolio p).cashBalance = p.cashBalance :=
  rfl

/-- A validation that passes forces a positive requested quantity. -/
theorem valid_implies_quantity_pos (limits : RiskService.RiskLimits)
    (marketOpen : Bool) (request : OrderService.OrderRequest)
    (portfolio : PortfolioService.Portfolio)
    (h : (OrderService.validateOrder limits marketOpen request
      (some portfolio)).valid = true) :
    0 < request.quantity := by
  by_contra hq
  push_neg at hq
  simp [OrderService.validateOrder, hq] at h

/-- One market fill of the full quantity on a fresh buy order: the order
leaves `processExecution` filled at average price `price`, and the
portfolio's cash drops by exactly `quantity·price + commission`. -/
theorem processExecution_fresh_buy (env : OrderService.ExecEnv)
    (order : OrderService.Order) (q price : ℚ)
    (portfolio : PortfolioService.Portfolio)
    (h0 : order.filledQuantity = 0) (h1 : order.totalFillValue = 0)
    (h2 : order.commission = 0) (hq : order.quantity = q) (hqpos : q ≠ 0)
    (hside : order.side = PortfolioService.Side.buy) :
    (OrderService.processExecution env order q price (some portfolio)).order.status
        = .filled ∧
    (OrderService.processExecution env order q price
      (some portfolio)).order.filledQuantity = q ∧
    (OrderService.processExecution env order q price
      (some portfolio)).order.avgFillPrice = price ∧
    (OrderService.processExecution env order q price
      (some portfolio)).order.commission =
      OrderService.calculateCommission order.exchange (q * price) ∧
    ∃ p', (OrderService.processExecution env order q price
        (some portfolio)).portfolio = some p' ∧
      p'.cashBalance = portfolio.cashBalance -
        (q * price + OrderService.calculateCommission order.exchange (q * price)) := by
  have hrem : max (0 : ℚ) (order.quantity - q) = 0 := by
    simp [hq]
  have havg : q * price / q = price := mul_div_cancel_left₀ price hqpos
  simp only [OrderService.processExecution, h0, h1, h2, zero_add, hrem, havg,
    if_true]
  refine ⟨trivial, trivial, trivial, trivial, ⟨_, rfl, ?_⟩⟩
  beta_reduce
  rw [PortfolioService.updatePositions, List.foldl_cons, List.foldl_nil,
    recalculatePortfolio_cashBalance,
    processTrade_buy_cashBalance _ _ (by simpa using hside)]

/-- C2: a valid market-buy order accepted by the exchange adapter comes out
of `executeOrder` fully filled (`filledQuantity = quantity`, report status
`success`), and the portfolio's cash balance drops by exactly
`quantity·fillPrice + commission`.  The modelled `recalculatePortfolio`
pass (see its doc comment) leaves cash untouched, as the spec states. -/
theorem C2_market_buy_fill (limits : RiskService.RiskLimits)
    (env : OrderService.ExecEnv) (request : OrderService.OrderRequest)
    (portfolio : PortfolioService.Portfolio) (exId : String)
    (hmkt : request.type = .market) (hbuy : request.side = .buy)
    (hvalid : (OrderService.validateOrder limits env.marketOpen request
      (some portfolio)).valid = true)
    (hex : env.exchangeResult = some exId) :
    ∃ o p',
      (OrderService.executeOrder limits env request (some portfolio)).order =
        some o ∧
      (OrderService.executeOrder limits env request (some portfolio)).portfolio =
        some p' ∧
      o.status = .filled ∧
      o.filledQuantity = request.quantity ∧
      (OrderService.executeOrder limits env request
        (some portfolio)).report.status = .success ∧
      p'.cashBalance = portfolio.cashBalance -
        (request.quantity * o.avgFillPrice + o.commission) := by
  have hq := valid_implies_quantity_pos limits env.marketOpen request portfolio
    hvalid
  have hqne : request.quantity ≠ 0 := ne_of_gt hq
  obtain ⟨hs, hf, ha, hc, p', hp, hcash⟩ :=
    processExecution_fresh_buy env
      ({ OrderService.createOrder env request with
          exchangeOrderId := some exId
          status := OrderService.OrderStatus.submitted
          updatedAt := env.now })
      request.quantity
      ((OrderService.validateOrder limits env.marketOpen request
        (some portfolio)).estimatedCost / request.quantity)
      portfolio rfl rfl rfl rfl hqne
      (by simp [OrderService.createOrder, hbuy])
  refine ⟨(OrderService.processExecution env
      ({ OrderService.createOrder env request with
          exchangeOrderId := some exId
          status := OrderService.OrderStatus.submitted
          updatedAt := env.now })
      request.quantity
      ((OrderService.validateOrder limits env.marketOpen request
        (some portfolio)).estimatedCost / request.quantity)
      (some portfolio)).order, p', ?_, ?_, hs, hf, ?_, ?_⟩
  · simp [OrderService.executeOrder, hvalid, hex, hmkt]
  · simp only [OrderService.executeOrder, hvalid, hex, hmkt]
    simp only [not_true, Bool.not_eq_true, if_false, eq_self_iff_true, if_true]
    exact hp
  · simp only [OrderService.executeOrder, hvalid, hex, hmkt]
    simp only [not_true, Bool.not_eq_true, if_false, eq_self_iff_true, if_true]
    rw [hs]
    rfl
  · rw [ha, hc]
    exact hcash

/-- A funded empty portfolio for the execution example. -/
def c2Portfolio : PortfolioService.Portfolio :=
  { id := "p1"
    totalValue := 100000
    totalEquity := 100000
    cashBalance := 100000
    marginUsed := 0
    freeMargin := 100000
    unrealizedPnL := 0
    realizedPnL := 0
    positions := [] }

/-- A market-buy request for 0.002 BTC on binance. -/
def c2Request : OrderService.OrderRequest :=
  { portfolioId := "p1"
    symbol := "BTC/USD"
    side := .buy
    type := .market
    quantity := 1/500
    price := none
    stopPrice := none
    timeInForce := none
    exchange := "binance"
    stopLoss := none
    takeProfit := none
    notes := none }

/-- A deterministic environment whose exchange adapter accepts the order. -/
def c2Env : OrderService.ExecEnv :=
  { now := 1
    orderId := "o1"
    fillId := "f1"
    tradeId := "t1"
    marketOpen := true
    exchangeResult := some "ex1" }

/-- The example request validates against the funded portfolio. -/
theorem c2Request_valid :
    (OrderService.validateOrder RiskService.defaultRiskLimits c2Env.marketOpen
      c2Request (some c2Portfolio)).valid = true := by
  have hlow : OrderService.strToLower "binance" = "binance" := by decide
  simp [hlow, OrderService.validateOrder, OrderService.riskValidateOrderCall,
    OrderService.calculateCommission, OrderService.commissionRate,
    OrderService.getEstimatedPrice, OrderService.mockPrice,
    OrderService.jsOrNum, c2Request, c2Portfolio, c2Env,
    RiskService.defaultRiskLimits]
  norm_num

/-- C2 witness: the market-buy theorem applied to the concrete request. -/
theorem C2_market_buy_fill_witness :
    ∃ o p',
      (OrderService.executeOrder RiskService.defaultRiskLimits c2Env c2Request
        (some c2Portfolio)).order = some o ∧
      (OrderService.executeOrder RiskService.defaultRiskLimits c2Env c2Request
        (some c2Portfolio)).portfolio = some p' ∧
      o.status = .filled ∧
      o.filledQuantity = c2Request.quantity ∧
      (OrderService.executeOrder RiskService.defaultRiskLimits c2Env c2Request
        (some c2Portfolio)).report.status = .success ∧
      p'.cashBalance = c2Portfolio.cashBalance -
        (c2Request.quantity * o.avgFillPrice + o.commission) :=
  C2_market_buy_fill RiskService.defaultRiskLimits c2Env c2Request c2Portfolio
    "ex1" rfl rfl c2Request_valid rfl
